import Mathlib

/-!
Verification of the Motion Control Subsystem of the tb-backend repository
(`src/test-windows-camera.js`, class `TurtleBotController`).

The controller is embedded shallowly as a state machine:
* JS numbers are modelled by `JSNum` (an exact rational plus the special
  values `inf`, `negInf`, `nan`); JS double rounding is not modelled, the
  arithmetic used by the controller is carried out exactly on rationals.
* `setTimeout` / `setInterval` timers are modelled by an explicit queue of
  `Timer` records kept sorted by (fire time, registration id), which is the
  firing order of the Node.js event loop.  Nested callbacks of the pattern
  methods are defunctionalized into the `Action` type, interpreted by
  `runAction`; `fireNext` fires the earliest pending timer.
* `io.emit` calls are recorded in an event trace, successful transport sends
  (`cmdVelPublisher.publish`) in a publish trace.  A `transportOk` flag
  models whether `publish` throws (the code catches and logs such errors).
* `Math.sin`, `Math.cos` and `Math.random` are host functions of the runtime;
  they enter the model as oracle fields (`hostSin`, `hostCos`, `hostRandom`)
  of the system state.  No property proved below depends on their values.
-/

set_option maxRecDepth 20000

namespace TB

/-- A JavaScript number: a finite value (exact rational) or one of the
special values `Infinity`, `-Infinity`, `NaN`. -/
inductive JSNum where
  | fin (q : ℚ)
  | inf
  | negInf
  | nan
deriving DecidableEq, Repr

instance (n : Nat) : OfNat JSNum n := ⟨.fin n⟩

/-- JS truthiness of a number: `0`, `-0` and `NaN` are falsy. -/
def JSNum.falsy : JSNum → Bool
  | .fin q => q == 0
  | .nan => true
  | _ => false

/-- `Number.isFinite` semantics. -/
def JSNum.isFinite : JSNum → Bool
  | .fin _ => true
  | _ => false

/-- The `x || 0` coercion applied by `publishTwist` after `parseFloat`
(`parseFloat` on a number is the identity). `NaN` and `0` become `0`;
`Infinity` and `-Infinity` are truthy and pass through. -/
def orZero (x : JSNum) : JSNum := if x.falsy then .fin 0 else x

/-- JS addition on the modelled number type. -/
def jsAdd : JSNum → JSNum → JSNum
  | .nan, _ => .nan
  | _, .nan => .nan
  | .fin a, .fin b => .fin (a + b)
  | .inf, .negInf => .nan
  | .negInf, .inf => .nan
  | .inf, _ => .inf
  | _, .inf => .inf
  | .negInf, _ => .negInf
  | _, .negInf => .negInf

/-- JS multiplication on the modelled number type. -/
def jsMul : JSNum → JSNum → JSNum
  | .nan, _ => .nan
  | _, .nan => .nan
  | .fin a, .fin b => .fin (a * b)
  | .inf, .fin b => if b = 0 then .nan else if 0 < b then .inf else .negInf
  | .fin a, .inf => if a = 0 then .nan else if 0 < a then .inf else .negInf
  | .negInf, .fin b => if b = 0 then .nan else if 0 < b then .negInf else .inf
  | .fin a, .negInf => if a = 0 then .nan else if 0 < a then .negInf else .inf
  | .inf, .inf => .inf
  | .inf, .negInf => .negInf
  | .negInf, .inf => .negInf
  | .negInf, .negInf => .inf

/-- The exact rational value of the double `Math.PI`. -/
def mathPI : ℚ := 884279719003555 / 281474976710656

/-- A 6-DOF twist `{linear:{x,y,z}, angular:{x,y,z}}`. -/
structure Twist where
  lx : JSNum
  ly : JSNum
  lz : JSNum
  ax : JSNum
  ay : JSNum
  az : JSNum
deriving DecidableEq, Repr

/-- The zero twist. -/
def zeroTwist : Twist := ⟨.fin 0, .fin 0, .fin 0, .fin 0, .fin 0, .fin 0⟩

/-- `isMoving` computation of `publishTwist`: some component `!== 0`. -/
def twistMoving (t : Twist) : Bool :=
  decide (t.lx ≠ .fin 0) || decide (t.ly ≠ .fin 0) || decide (t.lz ≠ .fin 0) ||
  decide (t.ax ≠ .fin 0) || decide (t.ay ≠ .fin 0) || decide (t.az ≠ .fin 0)

/-- Battery snapshot (`this.batteryData`). -/
structure BatteryData where
  percentage : ℚ
  voltage : ℚ
  current : ℚ
  charge : ℚ
  capacity : ℚ
  designCapacity : ℚ
  present : Bool
  timestamp : ℚ
deriving DecidableEq, Repr

/-- Odometry snapshot (`this.odomData`). -/
structure OdomData where
  posX : JSNum
  posY : JSNum
  posZ : JSNum
  oriX : ℚ
  oriY : ℚ
  oriZ : ℚ
  oriW : ℚ
  linX : JSNum
  linY : JSNum
  linZ : JSNum
  angX : JSNum
  angY : JSNum
  angZ : JSNum
  timestamp : ℚ
deriving DecidableEq, Repr

/-- Laser snapshot (`this.laserData`). -/
structure LaserScan where
  ranges : List ℚ
  angleMin : ℚ
  angleMax : ℚ
  angleIncrement : ℚ
  timeIncrement : ℚ
  scanTime : ℚ
  rangeMin : ℚ
  rangeMax : ℚ
  timestamp : ℚ
deriving DecidableEq, Repr

/-- The mutable fields of the `TurtleBotController` instance.
`hasPublisher` models `this.cmdVelPublisher !== null`. -/
structure Ctrl where
  isConnected : Bool
  rosMode : Bool
  hasPublisher : Bool
  currentTwist : Twist
  isMoving : Bool
  publishInterval : Option Nat
  batteryData : Option BatteryData
  odomData : Option OdomData
  laserData : Option LaserScan
deriving DecidableEq, Repr

/-- Names of the geometric patterns that emit lifecycle events. -/
inductive PatternName where
  | circle
  | triangle
  | love
  | diamond
deriving DecidableEq, Repr

/-- One `io.emit` call (numeric payloads kept, string payloads elided). -/
inductive Event where
  | movementUpdate (t : Twist) (moving : Bool)
  | patternStart (p : PatternName)
  | patternComplete (p : PatternName)
  | patternStopped (ts : ℚ)
  | batteryUpdate (b : BatteryData)
  | odomUpdate (o : OdomData)
  | laserUpdate (l : LaserScan)
deriving DecidableEq, Repr

/-- Who created a pending timer: the publisher-loop `setInterval`, a timeout
of the 5-shot stop burst, one of the pattern/square callback chains
(identified by a per-invocation job id), or the simulated-telemetry tickers. -/
inductive Owner where
  | pubLoop
  | stopBurst
  | job (jid : Nat)
  | simTelemetry
deriving DecidableEq, Repr

/-- Defunctionalized timer callbacks.  Each constructor holds exactly the
values captured by the corresponding closure in the source. -/
inductive Action where
  | pubTick
  | stopPub
  | circleStop (jid : Nat)
  | trianglePhase (jid : Nat) (moveDuration pauseDuration : ℚ) (k : Nat)
  | diamondPhase (jid : Nat) (moveDuration pauseDuration : ℚ) (side phase : Nat)
  | loveTick (jid : Nat) (size duration : ℚ) (k : Nat)
  | squarePhase (jid : Nat) (moveTime turnTime linearSpeed angularSpeed : ℚ)
      (side phase : Nat)
  | batteryTick
  | odomTick
  | laserTick
deriving DecidableEq, Repr

/-- A pending `setTimeout`/`setInterval` registration. -/
structure Timer where
  id : Nat
  owner : Owner
  fireAt : ℚ
  period : Option ℚ
  act : Action
deriving DecidableEq, Repr

/-- The whole system state: the controller, the pending timers, the trace of
transport publishes and of emitted events, and the host-function oracles. -/
structure Sys where
  ctrl : Ctrl
  now : ℚ
  nextTimerId : Nat
  nextJobId : Nat
  timers : List Timer
  published : List (ℚ × Twist)
  events : List (ℚ × Event)
  transportOk : Bool
  hostSin : ℚ → ℚ
  hostCos : ℚ → ℚ
  hostRandom : Nat → ℚ
  randIdx : Nat

/-- Firing order of the event loop: earlier fire time first, ties broken by
registration order (timer ids increase with registration). -/
def timerBefore (a b : Timer) : Bool :=
  decide (a.fireAt < b.fireAt) || (decide (a.fireAt = b.fireAt) && decide (a.id ≤ b.id))

/-- Insert a timer into the queue, keeping it sorted in firing order. -/
def insertTimer (t : Timer) : List Timer → List Timer
  | [] => [t]
  | u :: us => if timerBefore t u then t :: u :: us else u :: insertTimer t us

/-- Register a new timer with a fresh id, firing `delay` ms from now. -/
def schedule (ow : Owner) (delay : ℚ) (period : Option ℚ) (a : Action) (s : Sys) : Sys :=
  { s with nextTimerId := s.nextTimerId + 1,
           timers := insertTimer ⟨s.nextTimerId, ow, s.now + delay, period, a⟩ s.timers }

/-- `clearTimeout` / `clearInterval`. -/
def clearTimer (tid : Nat) (s : Sys) : Sys :=
  { s with timers := s.timers.filter (fun t => t.id != tid) }

/-- Record an `io.emit`. -/
def emit (e : Event) (s : Sys) : Sys := { s with events := (s.now, e) :: s.events }

/-- `cmdVelPublisher.publish(t)`: records the send when the transport is up;
when it is down the exception is caught and logged by every caller, so the
model is a no-op there. -/
def sendTwist (t : Twist) (s : Sys) : Sys :=
  if s.transportOk then { s with published := (s.now, t) :: s.published } else s

/-- `this.publishRate = 10` (Hz). -/
def publishRate : ℚ := 10

/-- `startContinuousPublishing()`: clear any existing interval, then start a
fresh repeating timer at `1000 / publishRate` ms whose tick is `pubTick`. -/
def startContinuousPublishing (s : Sys) : Sys :=
  let s1 := match s.ctrl.publishInterval with
    | some tid => clearTimer tid s
    | none => s
  let tid := s1.nextTimerId
  let s2 := schedule .pubLoop (1000 / publishRate) (some (1000 / publishRate)) .pubTick s1
  { s2 with ctrl := { s2.ctrl with publishInterval := some tid } }

/-- `publishTwist(lx, ly, lz, ax, ay, az)`.  Returns the updated system and
the boolean result of the call. -/
def publishTwist (lx ly lz ax ay az : JSNum) (s : Sys) : Sys × Bool :=
  if s.ctrl.isConnected then
    let tw : Twist := ⟨orZero lx, orZero ly, orZero lz, orZero ax, orZero ay, orZero az⟩
    let s1 := { s with ctrl :=
      { s.ctrl with currentTwist := tw, isMoving := twistMoving tw } }
    let s2 := startContinuousPublishing s1
    (emit (.movementUpdate tw (twistMoving tw)) s2, true)
  else
    (s, false)

/-- The five `setTimeout` registrations of the stop burst, at `i * 10` ms. -/
def scheduleBursts (s : Sys) : Sys :=
  (List.range 5).foldl (fun acc i => schedule .stopBurst (10 * (i : ℚ)) none .stopPub acc) s

/-- `stop()`: cancel the publisher interval, zero the commanded twist, and in
ROS mode schedule the 5-shot zero-twist burst; always returns `true`. -/
def stop (s : Sys) : Sys × Bool :=
  let s1 := match s.ctrl.publishInterval with
    | some tid => { clearTimer tid s with ctrl := { s.ctrl with publishInterval := none } }
    | none => s
  let s2 := { s1 with ctrl :=
    { s1.ctrl with currentTwist := zeroTwist, isMoving := false } }
  let s3 := if s2.ctrl.rosMode && s2.ctrl.hasPublisher then scheduleBursts s2 else s2
  (emit (.movementUpdate zeroTwist false) s3, true)

/-- `moveForward(speed)`. -/
def moveForward (speed : JSNum) (s : Sys) : Sys × Bool :=
  publishTwist speed 0 0 0 0 0 s

/-- `moveBackward(speed)`: publishes `-speed`; JS unary minus maps `NaN` to
`NaN` and flips the sign otherwise. -/
def jsNeg : JSNum → JSNum
  | .fin q => .fin (-q)
  | .inf => .negInf
  | .negInf => .inf
  | .nan => .nan

def moveBackward (speed : JSNum) (s : Sys) : Sys × Bool :=
  publishTwist (jsNeg speed) 0 0 0 0 0 s

/-- `turnLeft(angularSpeed)`. -/
def turnLeft (angularSpeed : JSNum) (s : Sys) : Sys × Bool :=
  publishTwist 0 0 0 0 0 angularSpeed s

/-- `turnRight(angularSpeed)`. -/
def turnRight (angularSpeed : JSNum) (s : Sys) : Sys × Bool :=
  publishTwist 0 0 0 0 0 (jsNeg angularSpeed) s

/-- `customMove(...)`: coerces each argument with `parseFloat(x) || 0` and
delegates to `publishTwist`. -/
def customMove (lx ly lz ax ay az : JSNum) (s : Sys) : Sys × Bool :=
  publishTwist (orZero lx) (orZero ly) (orZero lz) (orZero ax) (orZero ay) (orZero az) s

/-- `stopPattern()`. -/
def stopPattern (s : Sys) : Sys × Bool :=
  let s1 := (stop s).1
  (emit (.patternStopped s1.now) s1, true)

/-- The record returned by `getStatus()` (field names as in the source;
note the source returns `ros_mode`, not `using_simulation`). -/
structure Status where
  is_connected : Bool
  is_moving : Bool
  ros_mode : Bool
  current_twist : Twist
  battery_available : Bool
  odometry_available : Bool
  laser_available : Bool
  timestamp : ℚ
deriving DecidableEq, Repr

/-- The literal key list of the object literal returned by `getStatus()`. -/
def statusFieldKeys : List String :=
  ["is_connected", "is_moving", "ros_mode", "current_twist",
   "battery_available", "odometry_available", "laser_available", "timestamp"]

/-- `getStatus()`: a pure read of the controller state. -/
def getStatus (s : Sys) : Status :=
  { is_connected := s.ctrl.isConnected
    is_moving := s.ctrl.isMoving
    ros_mode := s.ctrl.rosMode
    current_twist := s.ctrl.currentTwist
    battery_available := s.ctrl.batteryData.isSome
    odometry_available := s.ctrl.odomData.isSome
    laser_available := s.ctrl.laserData.isSome
    timestamp := s.now }

/-- `Math.max(0.1, p - 0.001)`: the battery drain applied every simulated
30-second tick. -/
def batteryDrainStep (p : ℚ) : ℚ := max (1 / 10) (p - 1 / 1000)

/-- `startSimulation()`: the three simulated-telemetry intervals
(battery every 30000 ms, odometry every 100 ms, laser every 200 ms). -/
def startSimulation (s : Sys) : Sys :=
  let s1 := schedule .simTelemetry 30000 (some 30000) .batteryTick s
  let s2 := schedule .simTelemetry 100 (some 100) .odomTick s1
  schedule .simTelemetry 200 (some 200) .laserTick s2

/-- `initializeSimulationMode()`: mark connected, leave ROS mode off, install
the initial battery and odometry snapshots, then start the simulation. -/
def initializeSimulationMode (s : Sys) : Sys :=
  let s1 := { s with ctrl := { s.ctrl with
    isConnected := true
    rosMode := false
    batteryData := some
      { percentage := 85 / 100, voltage := 123 / 10, current := -(21 / 10),
        charge := 8500, capacity := 10000, designCapacity := 10000,
        present := true, timestamp := s.now }
    odomData := some
      { posX := .fin 0, posY := .fin 0, posZ := .fin 0,
        oriX := 0, oriY := 0, oriZ := 0, oriW := 1,
        linX := .fin 0, linY := .fin 0, linZ := .fin 0,
        angX := .fin 0, angY := .fin 0, angZ := .fin 0,
        timestamp := s.now } } }
  startSimulation s1

/-- Constant speed `0.2` m/s of `moveInTriangle`. -/
def triangleSpeed : ℚ := 2 / 10

/-- `(120 * Math.PI) / 180`, the turn rate of `moveInTriangle`. -/
def triangleAngular : ℚ := 120 * mathPI / 180

/-- Constant speed `0.25` m/s of `moveInDiamond`. -/
def diamondSpeed : ℚ := 25 / 100

/-- `(90 * Math.PI) / 180`, the turn rate of `moveInDiamond`. -/
def diamondAngular : ℚ := 90 * mathPI / 180

/-- The body of `executeSide` in `moveInDiamond`: either terminate the
pattern (4 sides done) or publish the side's forward speed (with the
`1 + Math.sin(side) * 0.2` variation) and schedule the stop phase. -/
def diamondEntry (jid : Nat) (moveDuration pauseDuration : ℚ) (side : Nat) (s : Sys) : Sys :=
  if 4 ≤ side then
    let s1 := (stop s).1
    emit (.patternComplete .diamond) s1
  else
    let speedVariation : ℚ := 1 + s.hostSin (side : ℚ) * (2 / 10)
    let currentSpeed : ℚ := diamondSpeed * speedVariation
    let s1 := (publishTwist (.fin currentSpeed) 0 0 0 0 0 s).1
    schedule (.job jid) moveDuration none
      (.diamondPhase jid moveDuration pauseDuration side 1) s1

/-- `moveInCircle(radius, duration, clockwise)`: one continuous twist with
`linearSpeed = 2*PI*radius / (duration/1000)` and
`angularSpeed = 2*PI / (duration/1000)` (sign flipped when clockwise),
plus a deferred `stop()` at `duration` ms.  The model is stated for
`duration ≠ 0` (JS division by zero would give `Infinity`). -/
def moveInCircle (radius duration : ℚ) (clockwise : Bool) (s : Sys) : Sys × Bool :=
  if s.ctrl.isConnected then
    let circumference := 2 * mathPI * radius
    let linearSpeed := circumference / (duration / 1000)
    let angularSpeed := (2 * mathPI) / (duration / 1000)
    let s1 := emit (.patternStart .circle) s
    let jid := s1.nextJobId
    let s2 := { s1 with nextJobId := jid + 1 }
    let s3 := (publishTwist (.fin linearSpeed) 0 0 0 0
      (.fin (if clockwise then -angularSpeed else angularSpeed)) s2).1
    (schedule (.job jid) duration none (.circleStop jid) s3, true)
  else
    (s, false)

/-- `moveInTriangle(sideLength, pauseDuration)`: publish the first forward
leg and schedule the 9-deep nested `setTimeout` chain (phases 0..8 of
`Action.trianglePhase`). -/
def moveInTriangle (sideLength pauseDuration : ℚ) (s : Sys) : Sys × Bool :=
  if s.ctrl.isConnected then
    let s1 := emit (.patternStart .triangle) s
    let jid := s1.nextJobId
    let s2 := { s1 with nextJobId := jid + 1 }
    let moveDuration := sideLength / triangleSpeed * 1000
    let s3 := (publishTwist (.fin triangleSpeed) 0 0 0 0 0 s2).1
    (schedule (.job jid) moveDuration none
      (.trianglePhase jid moveDuration pauseDuration 0) s3, true)
  else
    (s, false)

/-- `moveInLove(size, duration)`: a 100-step `setInterval` generator at
`duration / 100` ms per step (`Action.loveTick`). -/
def moveInLove (size duration : ℚ) (s : Sys) : Sys × Bool :=
  if s.ctrl.isConnected then
    let s1 := emit (.patternStart .love) s
    let jid := s1.nextJobId
    let s2 := { s1 with nextJobId := jid + 1 }
    let stepDuration := duration / 100
    (schedule (.job jid) stepDuration (some stepDuration)
      (.loveTick jid size duration 0) s2, true)
  else
    (s, false)

/-- `moveInDiamond(sideLength, pauseDuration)`: `executeSide(0)` runs
synchronously; subsequent phases are the scheduled chain of
`Action.diamondPhase`. -/
def moveInDiamond (sideLength pauseDuration : ℚ) (s : Sys) : Sys × Bool :=
  if s.ctrl.isConnected then
    let s1 := emit (.patternStart .diamond) s
    let jid := s1.nextJobId
    let s2 := { s1 with nextJobId := jid + 1 }
    let moveDuration := sideLength / diamondSpeed * 1000
    (diamondEntry jid moveDuration pauseDuration 0 s2, true)
  else
    (s, false)

/-- `moveSquare(sideLength, linearSpeed, angularSpeed)`: the awaited loop is
a chain of scheduled continuations (`Action.squarePhase`); the first forward
publish happens synchronously, each `await new Promise(setTimeout)` schedules
the rest. -/
def moveSquare (sideLength linearSpeed angularSpeed : ℚ) (s : Sys) : Sys × Bool :=
  if s.ctrl.isConnected then
    let moveTime := sideLength / linearSpeed
    let turnTime := mathPI / 2 / angularSpeed
    let jid := s.nextJobId
    let s1 := { s with nextJobId := jid + 1 }
    let s2 := (publishTwist (.fin linearSpeed) 0 0 0 0 0 s1).1
    (schedule (.job jid) (moveTime * 1000) none
      (.squarePhase jid moveTime turnTime linearSpeed angularSpeed 0 1) s2, true)
  else
    (s, false)

/-- The step counter of the heart generator lives in a closure variable; on
interval re-arm the recorded action advances it. -/
def Action.step : Action → Action
  | .loveTick jid size dur k => .loveTick jid size dur (k + 1)
  | a => a

/-- Interpret one timer callback.  `selfId` is the id of the firing timer
(used by the heart generator's `clearInterval(heartInterval)`). -/
def runAction (selfId : Nat) (a : Action) (s : Sys) : Sys :=
  match a with
  | .pubTick =>
      let s1 := if s.ctrl.rosMode && s.ctrl.hasPublisher then
          sendTwist s.ctrl.currentTwist s
        else s
      if s1.ctrl.isMoving then s1
      else
        let s2 := match s1.ctrl.publishInterval with
          | some tid => clearTimer tid s1
          | none => s1
        { s2 with ctrl := { s2.ctrl with publishInterval := none } }
  | .stopPub => sendTwist zeroTwist s
  | .circleStop _jid =>
      let s1 := (stop s).1
      emit (.patternComplete .circle) s1
  | .trianglePhase jid md pd k =>
      match k with
      | 0 =>
          let s1 := (stop s).1
          schedule (.job jid) pd none (.trianglePhase jid md pd 1) s1
      | 1 =>
          let s1 := (publishTwist 0 0 0 0 0 (.fin triangleAngular) s).1
          schedule (.job jid) 1000 none (.trianglePhase jid md pd 2) s1
      | 2 =>
          let s1 := (publishTwist (.fin triangleSpeed) 0 0 0 0 0 s).1
          schedule (.job jid) md none (.trianglePhase jid md pd 3) s1
      | 3 =>
          let s1 := (stop s).1
          schedule (.job jid) pd none (.trianglePhase jid md pd 4) s1
      | 4 =>
          let s1 := (publishTwist 0 0 0 0 0 (.fin triangleAngular) s).1
          schedule (.job jid) 1000 none (.trianglePhase jid md pd 5) s1
      | 5 =>
          let s1 := (publishTwist (.fin triangleSpeed) 0 0 0 0 0 s).1
          schedule (.job jid) md none (.trianglePhase jid md pd 6) s1
      | 6 =>
          let s1 := (stop s).1
          schedule (.job jid) pd none (.trianglePhase jid md pd 7) s1
      | 7 =>
          let s1 := (publishTwist 0 0 0 0 0 (.fin triangleAngular) s).1
          schedule (.job jid) 1000 none (.trianglePhase jid md pd 8) s1
      | _ =>
          let s1 := (stop s).1
          emit (.patternComplete .triangle) s1
  | .diamondPhase jid md pd side phase =>
      match phase with
      | 0 => diamondEntry jid md pd side s
      | 1 =>
          let s1 := (stop s).1
          schedule (.job jid) pd none (.diamondPhase jid md pd side 2) s1
      | 2 =>
          let turnDirection : ℚ := if side % 2 == 0 then 1 else -1
          let s1 := (publishTwist 0 0 0 0 0 (.fin (diamondAngular * turnDirection)) s).1
          schedule (.job jid) 800 none (.diamondPhase jid md pd side 3) s1
      | _ =>
          let s1 := (stop s).1
          schedule (.job jid) (pd / 2) none (.diamondPhase jid md pd (side + 1) 0) s1
  | .loveTick _jid size _dur k =>
      if 100 ≤ k then
        let s1 := (stop s).1
        let s2 := emit (.patternComplete .love) s1
        clearTimer selfId s2
      else
        let t : ℚ := (k : ℚ) / 100 * 2 * mathPI
        let scale : ℚ := size * (1 / 10)
        let speedMultiplier : ℚ := 1 + (1 / 2) * s.hostSin (t * 3)
        let linearSpeed : ℚ := scale * speedMultiplier * s.hostCos t
        let angularSpeed : ℚ :=
          scale * speedMultiplier * (s.hostSin t + s.hostSin (3 * t) * (3 / 10))
        (publishTwist (.fin linearSpeed) 0 0 0 0 (.fin angularSpeed) s).1
  | .squarePhase jid mt tt ls asp side phase =>
      match phase with
      | 0 =>
          let s1 := (publishTwist (.fin ls) 0 0 0 0 0 s).1
          schedule (.job jid) (mt * 1000) none (.squarePhase jid mt tt ls asp side 1) s1
      | 1 =>
          let s1 := (stop s).1
          schedule (.job jid) 1000 none (.squarePhase jid mt tt ls asp side 2) s1
      | 2 =>
          let s1 := (publishTwist 0 0 0 0 0 (.fin (-asp)) s).1
          schedule (.job jid) (tt * 1000) none (.squarePhase jid mt tt ls asp side 3) s1
      | _ =>
          let s1 := (stop s).1
          if side + 1 < 4 then
            schedule (.job jid) 1000 none (.squarePhase jid mt tt ls asp (side + 1) 0) s1
          else s1
  | .batteryTick =>
      match s.ctrl.batteryData, s.ctrl.rosMode with
      | some b, false =>
          let b2 := { b with percentage := batteryDrainStep b.percentage, timestamp := s.now }
          let s1 := { s with ctrl := { s.ctrl with batteryData := some b2 } }
          emit (.batteryUpdate b2) s1
      | _, _ => s
  | .odomTick =>
      match s.ctrl.isMoving, s.ctrl.rosMode, s.ctrl.odomData with
      | true, false, some o =>
          let tw := s.ctrl.currentTwist
          let o2 := { o with
            posX := jsAdd o.posX (jsMul tw.lx (.fin (1 / 10)))
            posY := jsAdd o.posY (jsMul tw.ly (.fin (1 / 10)))
            linX := tw.lx, linY := tw.ly, linZ := tw.lz
            angX := tw.ax, angY := tw.ay, angZ := tw.az
            timestamp := s.now }
          let s1 := { s with ctrl := { s.ctrl with odomData := some o2 } }
          emit (.odomUpdate o2) s1
      | _, _, _ => s
  | .laserTick =>
      if s.ctrl.rosMode then s
      else
        let ranges := (List.range 360).map (fun i => s.hostRandom (s.randIdx + i) * 5 + 1 / 2)
        let l : LaserScan :=
          { ranges := ranges, angleMin := -mathPI, angleMax := mathPI,
            angleIncrement := mathPI / 180, timeIncrement := 0, scanTime := 1 / 10,
            rangeMin := 1 / 10, rangeMax := 6, timestamp := s.now }
        let s1 := { s with ctrl := { s.ctrl with laserData := some l },
                           randIdx := s.randIdx + 360 }
        emit (.laserUpdate l) s1

/-- Fire the earliest pending timer (re-arming intervals), advancing the
clock to its fire time; a no-op when no timer is pending. -/
def fireNext (s : Sys) : Sys :=
  match s.timers with
  | [] => s
  | t :: rest =>
      let s1 := { s with
        now := max s.now t.fireAt
        timers := match t.period with
          | some p => insertTimer { t with fireAt := t.fireAt + p, act := t.act.step } rest
          | none => rest }
      runAction t.id t.act s1

/-- Fire `n` timers in event-loop order. -/
def run : Nat → Sys → Sys
  | 0, s => s
  | n + 1, s => run n (fireNext s)

/-- The controller fields as set by the constructor. -/
def initialCtrl : Ctrl where
  isConnected := false
  rosMode := false
  hasPublisher := false
  currentTwist := zeroTwist
  isMoving := false
  publishInterval := none
  batteryData := none
  odomData := none
  laserData := none

/-- A freshly constructed system, before any initialization path completes.
The host oracles are instantiated with a dummy; no property proved below
depends on their values. -/
def baseSys : Sys where
  ctrl := initialCtrl
  now := 0
  nextTimerId := 0
  nextJobId := 0
  timers := []
  published := []
  events := []
  transportOk := true
  hostSin := fun _ => 0
  hostCos := fun _ => 0
  hostRandom := fun _ => 0
  randIdx := 0

/-- The state right after the simulation-mode fallback initializes. -/
def simIdle : Sys := initializeSimulationMode baseSys

/-- The state right after a successful ROS initialization: connected, in ROS
mode, with a cmd_vel publisher, and an accepting transport. -/
def rosIdle : Sys :=
  { baseSys with ctrl :=
    { initialCtrl with isConnected := true, rosMode := true, hasPublisher := true } }

/-- `rosIdle` with a transport whose `publish` throws on every send. -/
def rosFailIdle : Sys := { rosIdle with transportOk := false }

/-- A system whose controller never connected. -/
def disconnectedIdle : Sys := baseSys

/-- The timers owned by pattern/square job `jid`. -/
def jobTimers (jid : Nat) (s : Sys) : List Timer :=
  s.timers.filter (fun t => t.owner == Owner.job jid)

/-- The number of pending publisher-loop intervals. -/
def pubLoopCount (s : Sys) : Nat :=
  s.timers.countP (fun t => t.owner == Owner.pubLoop)

/-- Pattern A then immediately pattern B on an idle simulation-mode
controller: `moveInTriangle` (job 0) followed by `moveInDiamond` (job 1). -/
def c1Sys : Sys := (moveInDiamond 1 300 (moveInTriangle 1 500 simIdle).1).1

/-- A ROS-mode controller driving forward at 0.2 m/s. -/
def movingRos : Sys := (moveForward (.fin (2 / 10)) rosIdle).1

/-- `movingRos` right after `stop()`. -/
def c2Stopped : Sys := (stop movingRos).1

/-- Same stop scenario, but with a transport whose every send throws. -/
def c2FailStopped : Sys := (stop (moveForward (.fin (2 / 10)) rosFailIdle).1).1

/-- `moveInCircle(1, 10000, true)` on the idle ROS-mode controller. -/
def circleSys : Sys := (moveInCircle 1 10000 true rosIdle).1

/-- A second movement command issued while `movingRos` is already moving. -/
def c4SysB : Sys := (turnLeft (.fin (1 / 2)) movingRos).1

/-- A movement command on the ROS-mode controller with a failing transport. -/
def c5SysA : Sys := (moveForward (.fin (2 / 10)) rosFailIdle).1

/-- A triangle pattern in flight on the simulation-mode controller. -/
def c8SysP : Sys := (moveInTriangle 1 500 simIdle).1

/-- `c8SysP` after one `stop()`. -/
def c8Stop1 : Sys := (stop c8SysP).1

/-- `c8SysP` after two consecutive `stop()` calls. -/
def c8Stop2 : Sys := (stop c8Stop1).1

/-- The battery percentage after `n` simulated 30-second drain ticks,
starting from the initial simulation snapshot of `0.85`. -/
def simBattery : Nat → ℚ
  | 0 => 85 / 100
  | n + 1 => batteryDrainStep (simBattery n)

/-- The single continuous twist commanded by `moveInCircle(1, 10000, true)`:
`2*PI*1 / 10` m/s forward, `-(2*PI / 10)` rad/s (clockwise). -/
def circleTwist : Twist :=
  ⟨.fin (mathPI / 5), .fin 0, .fin 0, .fin 0, .fin 0, .fin (-(mathPI / 5))⟩

/-- The controller fields held constant while the circle scenario cruises
(between the command and its deferred stop). -/
def circleCtrl : Ctrl :=
  { isConnected := true, rosMode := true, hasPublisher := true,
    currentTwist := circleTwist, isMoving := true, publishInterval := some 0,
    batteryData := none, odomData := none, laserData := none }

/-- The simulated clock after `j` publisher ticks of the circle scenario. -/
def tj (j : Nat) : ℚ := 100 * (j : ℚ)

/-- The transport trace after `j` publisher ticks of the circle scenario:
the same circle twist re-published at 100, 200, ..., `100 * j` ms. -/
def pubTrace : Nat → List (ℚ × Twist)
  | 0 => []
  | j + 1 => (tj (j + 1), circleTwist) :: pubTrace j

/-- The pending timers after `j` publisher ticks of the circle scenario:
the re-armed interval and the deferred stop, in firing order (the re-armed
interval moves after the stop once it is re-armed past 10000 ms). -/
def cruiseTimers (j : Nat) : List Timer :=
  if j < 100 then
    [⟨0, .pubLoop, tj (j + 1), some 100, .pubTick⟩,
     ⟨1, .job 0, 10000, none, .circleStop 0⟩]
  else
    [⟨1, .job 0, 10000, none, .circleStop 0⟩,
     ⟨0, .pubLoop, tj (j + 1), some 100, .pubTick⟩]

/-- The whole system state after `j` publisher ticks of the circle scenario
(`run_cruise` proves `run j circleSys = cruise j` for `j ≤ 100`). -/
def cruise (j : Nat) : Sys where
  ctrl := circleCtrl
  now := tj j
  nextTimerId := 2
  nextJobId := 1
  timers := cruiseTimers j
  published := pubTrace j
  events := [(0, .movementUpdate circleTwist true), (0, .patternStart .circle)]
  transportOk := true
  hostSin := fun _ => 0
  hostCos := fun _ => 0
  hostRandom := fun _ => 0
  randIdx := 0

/-! ### Helper lemmas -/

theorem orZero_fin (q : ℚ) : orZero (.fin q) = .fin q := by
  by_cases h : q = 0 <;> simp [orZero, JSNum.falsy, h]

theorem orZero_ne_nan (x : JSNum) : orZero x ≠ JSNum.nan := by
  cases x with
  | fin q => by_cases h : q = 0 <;> simp [orZero, JSNum.falsy, h]
  | inf => simp [orZero, JSNum.falsy]
  | negInf => simp [orZero, JSNum.falsy]
  | nan => simp [orZero, JSNum.falsy]

theorem orZero_nan : orZero JSNum.nan = JSNum.fin 0 := by
  simp [orZero, JSNum.falsy]

theorem orZero_zero : orZero 0 = JSNum.fin 0 := by
  with_unfolding_all rfl

theorem twistMoving_eq_false_iff (t : Twist) : twistMoving t = false ↔ t = zeroTwist := by
  cases t
  simp [twistMoving, zeroTwist, Twist.mk.injEq]
  tauto

theorem fireNext_nil (s : Sys) (h : s.timers = []) : fireNext s = s := by
  simp [fireNext, h]

theorem run_nil (s : Sys) (h : s.timers = []) : ∀ n, run n s = s := by
  intro n
  induction n with
  | zero => rfl
  | succ n ih => simp [run, fireNext_nil s h, ih]

theorem run_add (a b : Nat) (s : Sys) : run (a + b) s = run b (run a s) := by
  induction a generalizing s with
  | zero => rw [Nat.zero_add]; rfl
  | succ a ih =>
      have h1 : a + 1 + b = (a + b) + 1 := by omega
      rw [h1]
      show run (a + b) (fireNext s) = run b (run a (fireNext s))
      exact ih (fireNext s)

theorem countP_insertTimer (p : Timer → Bool) (t : Timer) (l : List Timer) :
    (insertTimer t l).countP p = (t :: l).countP p := by
  induction l with
  | nil => rfl
  | cons u us ih =>
      cases h : timerBefore t u with
      | true => simp [insertTimer, h]
      | false =>
          simp [insertTimer, h, List.countP_cons, ih]
          omega

theorem mem_insertTimer (u t : Timer) (l : List Timer) :
    u ∈ insertTimer t l ↔ u = t ∨ u ∈ l := by
  induction l with
  | nil => simp [insertTimer]
  | cons v vs ih =>
      cases h : timerBefore t v with
      | true => simp [insertTimer, h]
      | false =>
          simp [insertTimer, h, ih]
          tauto

theorem stop_ctrl (s : Sys) :
    (stop s).1.ctrl =
      { s.ctrl with currentTwist := zeroTwist, isMoving := false,
                    publishInterval := none } := by
  obtain ⟨⟨c1, c2, c3, c4, c5, c6, c7, c8, c9⟩, nw, nti, nji, tms, pb, evs, tok, o1, o2, o3, ri⟩ := s
  cases c6 <;> cases c2 <;> cases c3 <;> rfl

theorem stop_snd (s : Sys) : (stop s).2 = true := rfl

theorem run_succ_right (n : Nat) (s : Sys) : run (n + 1) s = fireNext (run n s) := by
  induction n generalizing s with
  | zero => rfl
  | succ n ih =>
      show run (n + 1) (fireNext s) = fireNext (run (n + 1) s)
      rw [ih (fireNext s)]
      rfl

theorem fireNext_pubTick (s : Sys) (i0 : Nat) (f p : ℚ) (rest : List Timer)
    (ht : s.timers = ⟨i0, .pubLoop, f, some p, .pubTick⟩ :: rest)
    (hr : s.ctrl.rosMode = true) (hp : s.ctrl.hasPublisher = true)
    (hok : s.transportOk = true) (hm : s.ctrl.isMoving = true) :
    fireNext s = { s with
      now := max s.now f,
      timers := insertTimer ⟨i0, .pubLoop, f + p, some p, .pubTick⟩ rest,
      published := (max s.now f, s.ctrl.currentTwist) :: s.published } := by
  simp [fireNext, ht, runAction, Action.step, hr, hp, hok, sendTwist, hm]

theorem tj_succ (j : Nat) : tj (j + 1) = tj j + 100 := by
  unfold tj
  push_cast
  ring

theorem tj_mono (j : Nat) : tj j ≤ tj (j + 1) := by
  rw [tj_succ]
  linarith

theorem tj_le {j : Nat} (h : j ≤ 100) : tj j ≤ 10000 := by
  unfold tj
  have h2 : (j : ℚ) ≤ 100 := by exact_mod_cast h
  linarith

theorem cruise_step (j : Nat) (hj : j < 100) : fireNext (cruise j) = cruise (j + 1) := by
  have ht : (cruise j).timers = ⟨0, .pubLoop, tj (j + 1), some 100, .pubTick⟩ ::
      [⟨1, .job 0, 10000, none, .circleStop 0⟩] := by
    show cruiseTimers j = _
    simp [cruiseTimers, hj]
  rw [fireNext_pubTick (cruise j) 0 (tj (j + 1)) 100 _ ht rfl rfl rfl rfl]
  have hmax : max (cruise j).now (tj (j + 1)) = tj (j + 1) := max_eq_right (tj_mono j)
  have hins : insertTimer ⟨0, .pubLoop, tj (j + 1) + 100, some 100, .pubTick⟩
      [⟨1, .job 0, 10000, none, .circleStop 0⟩] = cruiseTimers (j + 1) := by
    rcases Nat.lt_or_ge j 99 with h1 | h1
    · have h2 : tj (j + 1) + 100 ≤ 10000 := by
        have h3 := tj_le (show j + 2 ≤ 100 by omega)
        rw [tj_succ (j + 1)] at h3
        exact h3
      have hb : timerBefore ⟨0, .pubLoop, tj (j + 1) + 100, some 100, .pubTick⟩
          ⟨1, .job 0, 10000, none, .circleStop 0⟩ = true := by
        rcases lt_or_eq_of_le h2 with h3 | h3
        · simp [timerBefore, h3]
        · simp [timerBefore, h3]
      simp [insertTimer, hb, cruiseTimers, show j + 1 < 100 by omega, tj_succ (j + 1)]
    · have hj99 : j = 99 := by omega
      subst hj99
      have hb : timerBefore ⟨0, .pubLoop, tj 100 + 100, some 100, .pubTick⟩
          ⟨1, .job 0, 10000, none, .circleStop 0⟩ = false := by
        have h4 : (10000 : ℚ) < tj 100 + 100 := by
          unfold tj
          norm_num
        simp [timerBefore]
        exact ⟨by linarith, by intro h5; linarith⟩
      simp [insertTimer, hb, cruiseTimers, tj_succ 100]
  rw [hmax, hins]
  with_unfolding_all rfl

theorem run_cruise : ∀ j : Nat, j ≤ 100 → run j circleSys = cruise j := by
  intro j
  induction j with
  | zero => intro _; with_unfolding_all rfl
  | succ k ih =>
      intro hj
      rw [run_succ_right, ih (by omega), cruise_step k (by omega)]

theorem run101_circle : run 101 circleSys = fireNext (cruise 100) := by
  rw [run_succ_right, run_cruise 100 le_rfl]

theorem circleFinal_events : (fireNext (cruise 100)).events =
    [((10000 : ℚ), Event.patternComplete PatternName.circle),
     ((10000 : ℚ), Event.movementUpdate zeroTwist false),
     ((0 : ℚ), Event.movementUpdate circleTwist true),
     ((0 : ℚ), Event.patternStart PatternName.circle)] := by
  with_unfolding_all rfl

theorem pubTrace_all (j : Nat) :
    ((pubTrace j).all fun p => p.2 == circleTwist) = true := by
  induction j with
  | zero => rfl
  | succ k ih => simp [pubTrace, ih]

theorem pubTrace_length (j : Nat) : (pubTrace j).length = j := by
  induction j with
  | zero => rfl
  | succ k ih => simp [pubTrace, ih]

theorem schedule_mem (ow : Owner) (d : ℚ) (p : Option ℚ) (a : Action) (s : Sys) :
    (⟨s.nextTimerId, ow, s.now + d, p, a⟩ : Timer) ∈ (schedule ow d p a s).timers :=
  (mem_insertTimer _ _ _).mpr (Or.inl rfl)

theorem pubTick_published (k : Nat) (s2 : Sys) (hr : s2.ctrl.rosMode = true)
    (hp : s2.ctrl.hasPublisher = true) (hok : s2.transportOk = true) :
    (runAction k Action.pubTick s2).published =
      (s2.now, s2.ctrl.currentTwist) :: s2.published := by
  cases hm : s2.ctrl.isMoving <;> cases hpi : s2.ctrl.publishInterval <;>
    simp [runAction, hr, hp, hok, sendTwist, clearTimer, hm, hpi]

/-! ### Claim theorems -/

/-- Claim C9 (confirmed): whenever `isConnected` is false, every movement and
pattern call returns `false` and leaves the whole system state unchanged — no
twist is stored or sent, no timer is touched, no event is emitted. -/
theorem c9_not_connected_noop (s : Sys) (h : s.ctrl.isConnected = false)
    (lx ly lz ax ay az : JSNum) (radius duration sz sl pause ls asp : ℚ) (cw : Bool) :
    publishTwist lx ly lz ax ay az s = (s, false) ∧
    moveForward lx s = (s, false) ∧
    moveBackward lx s = (s, false) ∧
    turnLeft ax s = (s, false) ∧
    turnRight ax s = (s, false) ∧
    customMove lx ly lz ax ay az s = (s, false) ∧
    moveInCircle radius duration cw s = (s, false) ∧
    moveInTriangle sl pause s = (s, false) ∧
    moveInLove sz duration s = (s, false) ∧
    moveInDiamond sl pause s = (s, false) ∧
    moveSquare sl ls asp s = (s, false) := by
  refine ⟨?_, ?_, ?_, ?_, ?_, ?_, ?_, ?_, ?_, ?_, ?_⟩ <;>
    simp [publishTwist, moveForward, moveBackward, turnLeft, turnRight, customMove,
      moveInCircle, moveInTriangle, moveInLove, moveInDiamond, moveSquare, h]

/-- Witness for C9 at a concrete never-connected controller. -/
theorem c9_not_connected_noop_witness :
    disconnectedIdle.ctrl.isConnected = false ∧
    moveInCircle 1 10000 true disconnectedIdle = (disconnectedIdle, false) :=
  ⟨rfl,
   (c9_not_connected_noop disconnectedIdle rfl 0 0 0 0 0 0 1 10000 1 1 500
      (2 / 10) (1 / 2) true).2.2.2.2.2.2.1⟩

/-- Claim C3 counterexample: `publishTwist(Infinity, 0, ..., 0)` stores
`Infinity` — a component that does not parse as a finite number and yet does
not resolve to `0.0` (because `parseFloat(Infinity) || 0` keeps truthy
`Infinity`). -/
theorem c3_counterexample :
    (publishTwist JSNum.inf 0 0 0 0 0 simIdle).1.ctrl.currentTwist.lx = JSNum.inf ∧
    JSNum.inf.isFinite = false ∧
    JSNum.inf ≠ JSNum.fin 0 := by
  refine ⟨by decide, by decide, by decide⟩

/-- Claim C3 (amended): in every `publishTwist` call on a connected
controller, each component is resolved by `parseFloat(x) || 0`: a component
that parses to `NaN` resolves to exactly `0.0` and `NaN` is never stored,
but `Infinity` / `-Infinity` pass through unchanged; after the call
`isMoving` is false iff all six stored components are exactly zero. -/
theorem c3_amended_zero_command (s : Sys) (hc : s.ctrl.isConnected = true)
    (lx ly lz ax ay az : JSNum) :
    (publishTwist lx ly lz ax ay az s).1.ctrl.currentTwist =
      ⟨orZero lx, orZero ly, orZero lz, orZero ax, orZero ay, orZero az⟩ ∧
    (∀ x : JSNum, x = JSNum.nan → orZero x = JSNum.fin 0) ∧
    (∀ x : JSNum, orZero x ≠ JSNum.nan) ∧
    ((publishTwist lx ly lz ax ay az s).1.ctrl.isMoving = false ↔
      (publishTwist lx ly lz ax ay az s).1.ctrl.currentTwist = zeroTwist) := by
  cases h : s.ctrl.publishInterval with
  | none =>
      refine ⟨?_, ?_, ?_, ?_⟩
      · simp [publishTwist, startContinuousPublishing, schedule, emit, hc, h]
      · intro x hx; rw [hx]; exact orZero_nan
      · exact orZero_ne_nan
      · simp [publishTwist, startContinuousPublishing, schedule, emit, hc, h]
        exact twistMoving_eq_false_iff _
  | some tid =>
      refine ⟨?_, ?_, ?_, ?_⟩
      · simp [publishTwist, startContinuousPublishing, schedule, emit, clearTimer, hc, h]
      · intro x hx; rw [hx]; exact orZero_nan
      · exact orZero_ne_nan
      · simp [publishTwist, startContinuousPublishing, schedule, emit, clearTimer, hc, h]
        exact twistMoving_eq_false_iff _

/-- Witness for C3 at a concrete call: a `NaN` component resolves to zero
and the stored twist makes `isMoving` track non-zeroness. -/
theorem c3_amended_zero_command_witness :
    simIdle.ctrl.isConnected = true ∧
    (publishTwist JSNum.nan 0 0 0 0 0 simIdle).1.ctrl.currentTwist =
      ⟨orZero JSNum.nan, orZero 0, orZero 0, orZero 0, orZero 0, orZero 0⟩ :=
  ⟨rfl, (c3_amended_zero_command simIdle rfl JSNum.nan 0 0 0 0 0).1⟩

/-- Claim C1 counterexample: issuing pattern A (`moveInTriangle`, job 0) and
then immediately pattern B (`moveInDiamond`, job 1) leaves a timer belonging
to A alive — not zero timers as claimed. -/
theorem c1_counterexample : (jobTimers 0 c1Sys).length ≠ 0 := by
  with_unfolding_all decide

/-- Claim C1 (amended): starting a new movement or pattern command does NOT
cancel the previous pattern's timers — after `moveInTriangle` then
`moveInDiamond` both jobs have a live timer (the triangle's first phase
callback is still pending alongside the diamond's); only the publisher-loop
interval is replaced, of which at most one exists. -/
theorem c1_amended_no_cancellation :
    (jobTimers 0 c1Sys).length = 1 ∧
    (jobTimers 1 c1Sys).length = 1 ∧
    ((jobTimers 0 c1Sys).map fun t => t.act) = [Action.trianglePhase 0 5000 500 0] ∧
    ((jobTimers 1 c1Sys).map fun t => t.act) = [Action.diamondPhase 1 4000 300 0 1] ∧
    pubLoopCount c1Sys = 1 := by
  refine ⟨?_, ?_, ?_, ?_, ?_⟩ <;> with_unfolding_all rfl

/-- Claim C8 counterexample: with a triangle pattern in flight, two
consecutive `stop()` calls leave the pattern's timer pending — the resulting
state does not satisfy "no active pattern". -/
theorem c8_counterexample :
    (jobTimers 0 c8Stop2).length = 1 ∧
    ((jobTimers 0 c8Stop2).map fun t => t.act) = [Action.trianglePhase 0 5000 500 0] := by
  refine ⟨?_, ?_⟩ <;> with_unfolding_all rfl

/-- Claim C8 (amended): calling `stop()` twice in a row produces identical
controller state — zero twist, not moving, publisher loop not running — and
both calls return `true` (no throw); but `stop()` does not cancel pattern
timers, so a previously started pattern's scheduled phases remain pending. -/
theorem c8_amended_stop_idempotent (s : Sys) :
    (stop s).2 = true ∧
    (stop (stop s).1).2 = true ∧
    (stop s).1.ctrl.currentTwist = zeroTwist ∧
    (stop s).1.ctrl.isMoving = false ∧
    (stop s).1.ctrl.publishInterval = none ∧
    (stop (stop s).1).1.ctrl = (stop s).1.ctrl ∧
    c8Stop2.ctrl = c8Stop1.ctrl ∧
    c8Stop2.timers = c8Stop1.timers := by
  refine ⟨rfl, rfl, ?_, ?_, ?_, ?_, by with_unfolding_all rfl, by with_unfolding_all rfl⟩
  · rw [stop_ctrl]
  · rw [stop_ctrl]
  · rw [stop_ctrl]
  · rw [stop_ctrl, stop_ctrl]

/-- Claim C6 counterexample: the object returned by `getStatus()` has no
`using_simulation` field at all — the source returns `ros_mode` instead, and
that field is `false` (not `true`) right after simulation-mode
initialization. -/
theorem c6_counterexample :
    "using_simulation" ∉ statusFieldKeys ∧
    "ros_mode" ∈ statusFieldKeys ∧
    (getStatus simIdle).ros_mode = false := by
  refine ⟨by decide, by decide, rfl⟩

/-- Claim C6 (amended): `getStatus()` is a pure read of the controller state
returning `{is_connected, is_moving, ros_mode, current_twist,
battery_available, odometry_available, laser_available, timestamp}`; with no
transport configured, immediately after `initializeSimulationMode` it reports
`ros_mode = false` (simulation active), connected, and non-null battery and
odometry snapshots — populated synchronously, before the first simulated
tick. -/
theorem c6_amended_status_shape (s : Sys) :
    getStatus (initializeSimulationMode s) =
      { is_connected := true
        is_moving := s.ctrl.isMoving
        ros_mode := false
        current_twist := s.ctrl.currentTwist
        battery_available := true
        odometry_available := true
        laser_available := s.ctrl.laserData.isSome
        timestamp := s.now } ∧
    (∀ s2 : Sys, getStatus s2 =
      ⟨s2.ctrl.isConnected, s2.ctrl.isMoving, s2.ctrl.rosMode, s2.ctrl.currentTwist,
       s2.ctrl.batteryData.isSome, s2.ctrl.odomData.isSome, s2.ctrl.laserData.isSome,
       s2.now⟩) :=
  ⟨rfl, fun _ => rfl⟩

/-- Claim C2 (confirmed): `stop()` cancels the publisher interval immediately
and zeroes the commanded twist (for every state); in ROS mode it then
schedules exactly 5 zero-twist publishes 10 ms apart — within the claimed
1-to-5 bound — after which no further publishes occur until the next motion
command; with a transport that throws on every send, the same 5 attempts are
made and abandoned (a fixed over-publish, not a retry-until-success loop). -/
theorem c2_bounded_stop_burst :
    (∀ s : Sys, (stop s).1.ctrl.currentTwist = zeroTwist ∧
       (stop s).1.ctrl.isMoving = false ∧
       (stop s).1.ctrl.publishInterval = none ∧ (stop s).2 = true) ∧
    c2Stopped.ctrl.publishInterval = none ∧
    (c2Stopped.timers.map fun t => (t.owner, t.fireAt, t.period, t.act)) =
      [(Owner.stopBurst, (0 : ℚ), none, Action.stopPub),
       (Owner.stopBurst, 10, none, Action.stopPub),
       (Owner.stopBurst, 20, none, Action.stopPub),
       (Owner.stopBurst, 30, none, Action.stopPub),
       (Owner.stopBurst, 40, none, Action.stopPub)] ∧
    (∀ n : Nat, (run n c2Stopped).published.length ≤ 5 ∧
       ((run n c2Stopped).published.all fun p => p.2 == zeroTwist) = true) ∧
    (run 5 c2Stopped).published.length = 5 ∧
    (run 5 c2Stopped).timers = [] ∧
    (∀ n : Nat, run (5 + n) c2Stopped = run 5 c2Stopped) ∧
    c2FailStopped.timers.length = 5 ∧
    (run 5 c2FailStopped).published = [] ∧
    (run 5 c2FailStopped).timers = [] := by
  have hfix : ∀ n : Nat, run (5 + n) c2Stopped = run 5 c2Stopped := by
    intro n
    rw [run_add]
    exact run_nil _ (by with_unfolding_all rfl) n
  refine ⟨?_, by with_unfolding_all rfl, by with_unfolding_all rfl, ?_,
    by with_unfolding_all rfl, by with_unfolding_all rfl, hfix,
    by with_unfolding_all rfl, by with_unfolding_all rfl, by with_unfolding_all rfl⟩
  · intro s
    exact ⟨by rw [stop_ctrl], by rw [stop_ctrl], by rw [stop_ctrl], rfl⟩
  · intro n
    rcases Nat.lt_or_ge n 5 with h | h
    · interval_cases n <;>
        exact ⟨by with_unfolding_all decide, by with_unfolding_all rfl⟩
    · obtain ⟨m, rfl⟩ := Nat.exists_eq_add_of_le h
      rw [hfix m]
      exact ⟨by with_unfolding_all decide, by with_unfolding_all rfl⟩

/-- Claim C4 counterexample: issuing a second command while the loop is
already running does restart the timer — the pending interval (id 0) is
destroyed and a fresh one (id 1) is registered, refuting "(re)started only if
not already running / without restarting the timer". -/
theorem c4_counterexample :
    movingRos.ctrl.publishInterval = some 0 ∧
    (movingRos.timers.map fun t => (t.id, t.owner)) = [(0, Owner.pubLoop)] ∧
    c4SysB.ctrl.publishInterval = some 1 ∧
    (c4SysB.timers.map fun t => (t.id, t.owner)) = [(1, Owner.pubLoop)] := by
  refine ⟨?_, ?_, ?_, ?_⟩ <;> with_unfolding_all rfl

/-- Claim C4 (amended): every `publishTwist` on a connected controller clears
any existing publisher interval and registers a fresh one (an unconditional
restart, not an idempotent start), so at most one publisher-loop interval
exists at any instant; each tick re-publishes the current snapshot of the
commanded twist at tick time, not a captured copy. -/
theorem c4_amended_timer_restart (s : Sys) (lx ly lz ax ay az : JSNum)
    (hc : s.ctrl.isConnected = true)
    (hwf : ∀ t ∈ s.timers, t.owner = Owner.pubLoop ↔ some t.id = s.ctrl.publishInterval) :
    (publishTwist lx ly lz ax ay az s).1.ctrl.publishInterval = some s.nextTimerId ∧
    pubLoopCount (publishTwist lx ly lz ax ay az s).1 = 1 ∧
    (∀ (k : Nat) (s2 : Sys), s2.ctrl.rosMode = true → s2.ctrl.hasPublisher = true →
       s2.transportOk = true →
       (runAction k Action.pubTick s2).published =
         (s2.now, s2.ctrl.currentTwist) :: s2.published) := by
  cases h : s.ctrl.publishInterval with
  | none =>
      have h0 : s.timers.countP (fun t => t.owner == Owner.pubLoop) = 0 := by
        rw [List.countP_eq_zero]
        intro t ht hpt
        have h1 : t.owner = Owner.pubLoop := by simpa using hpt
        have h2 := (hwf t ht).1 h1
        rw [h] at h2
        exact Option.noConfusion h2
      refine ⟨?_, ?_, pubTick_published⟩
      · simp [publishTwist, startContinuousPublishing, schedule, emit, hc, h]
      · simp [publishTwist, startContinuousPublishing, schedule, emit, hc, h,
          pubLoopCount, countP_insertTimer, List.countP_cons, h0]
  | some tid =>
      have h0 : (s.timers.filter fun t => t.id != tid).countP
          (fun t => t.owner == Owner.pubLoop) = 0 := by
        rw [List.countP_eq_zero]
        intro t ht hpt
        have hmem := List.mem_filter.mp ht
        have h1 : t.owner = Owner.pubLoop := by simpa using hpt
        have h2 := (hwf t hmem.1).1 h1
        rw [h] at h2
        have h3 : t.id = tid := by exact Option.some.inj h2
        simp [h3] at hmem
      refine ⟨?_, ?_, pubTick_published⟩
      · simp [publishTwist, startContinuousPublishing, schedule, emit, clearTimer, hc, h]
      · simp [publishTwist, startContinuousPublishing, schedule, emit, clearTimer, hc, h,
          pubLoopCount, countP_insertTimer, List.countP_cons, h0]

/-- Witness for C4 at the idle ROS-mode controller. -/
theorem c4_amended_timer_restart_witness :
    rosIdle.ctrl.isConnected = true ∧
    (publishTwist (.fin (2 / 10)) 0 0 0 0 0 rosIdle).1.ctrl.publishInterval =
      some rosIdle.nextTimerId :=
  ⟨rfl, (c4_amended_timer_restart rosIdle (.fin (2 / 10)) 0 0 0 0 0 rfl
      (by intro t ht; simp [rosIdle, baseSys] at ht)).1⟩

/-- Claim C5 counterexample: with a transport that throws on every send, the
movement command still reports `true` to its caller (never `success:false`);
the first tick's send fails (nothing reaches the transport) while the loop
keeps running. -/
theorem c5_counterexample :
    (moveForward (.fin (2 / 10)) rosFailIdle).2 = true ∧
    (run 1 c5SysA).published = [] ∧
    (run 1 c5SysA).ctrl.publishInterval = some 0 ∧
    ((run 1 c5SysA).timers.map fun t => (t.id, t.fireAt)) = [(0, (200 : ℚ))] := by
  refine ⟨?_, ?_, ?_, ?_⟩ <;> with_unfolding_all rfl

/-- Claim C5 (amended): a transport failure on an individual send is caught
and logged inside the tick, which leaves the system state entirely unchanged
— the Publisher Loop does not abort and naturally retries on the next
fixed-rate tick — but the movement command call that triggered it still
reports `true` (the return value reflects only the connection check, never
transport failures). -/
theorem c5_amended_publish_failure (s : Sys) (lx ly lz ax ay az : JSNum)
    (hc : s.ctrl.isConnected = true) (hf : s.transportOk = false) :
    (publishTwist lx ly lz ax ay az s).2 = true ∧
    (∀ t : Twist, sendTwist t s = s) ∧
    (∀ (k : Nat) (s2 : Sys), s2.transportOk = false → s2.ctrl.isMoving = true →
       runAction k Action.pubTick s2 = s2) ∧
    (run 2 c5SysA).published = [] ∧
    ((run 2 c5SysA).timers.map fun t => (t.id, t.fireAt)) = [(0, (300 : ℚ))] ∧
    (run 2 c5SysA).ctrl.isMoving = true := by
  refine ⟨?_, ?_, ?_, by with_unfolding_all rfl, by with_unfolding_all rfl,
    by with_unfolding_all rfl⟩
  · simp [publishTwist, hc]
  · intro t
    simp [sendTwist, hf]
  · intro k s2 hf2 hm2
    cases hq : (s2.ctrl.rosMode && s2.ctrl.hasPublisher) <;>
      simp [runAction, sendTwist, hf2, hm2, hq]

/-- Witness for C5 at the failing-transport ROS controller. -/
theorem c5_amended_publish_failure_witness :
    rosFailIdle.ctrl.isConnected = true ∧ rosFailIdle.transportOk = false ∧
    (publishTwist (.fin (2 / 10)) 0 0 0 0 0 rosFailIdle).2 = true :=
  ⟨rfl, rfl,
   (c5_amended_publish_failure rosFailIdle (.fin (2 / 10)) 0 0 0 0 0 rfl rfl).1⟩

/-- Claim C7 (confirmed): `moveInCircle(radius, duration, clockwise)` on a
connected controller commands the single continuous twist with linear speed
`2*PI*radius / (duration/1000)` and angular speed `2*PI / (duration/1000)`
(sign flipped by `clockwise`), and schedules one deferred stop at
`duration` ms in the future; in the concrete `moveInCircle(1, 10000, true)`
run, the `pattern_movement_complete{circle}` event is emitted at t = 10000
(at, hence not before, the duration: no completion event exists among the
first 100 steps) and the commanded twist is zero afterwards, every tick
before the stop having republished the same circle twist. -/
theorem c7_circle_pattern (radius duration : ℚ) (clockwise : Bool) (s : Sys)
    (hc : s.ctrl.isConnected = true) (hd : 0 < duration) :
    (moveInCircle radius duration clockwise s).2 = true ∧
    (moveInCircle radius duration clockwise s).1.ctrl.currentTwist =
      ⟨.fin (2 * mathPI * radius / (duration / 1000)), .fin 0, .fin 0, .fin 0, .fin 0,
       .fin (if clockwise then -(2 * mathPI / (duration / 1000))
             else 2 * mathPI / (duration / 1000))⟩ ∧
    (∃ t ∈ (moveInCircle radius duration clockwise s).1.timers,
        t.owner = Owner.job s.nextJobId ∧ t.fireAt = s.now + duration ∧
        t.period = none ∧ t.act = Action.circleStop s.nextJobId) ∧
    s.now < s.now + duration ∧
    ((s.now, Event.patternStart PatternName.circle) ∈
      (moveInCircle radius duration clockwise s).1.events) ∧
    (run 101 circleSys).ctrl.currentTwist = zeroTwist ∧
    (((10000 : ℚ), Event.patternComplete PatternName.circle) ∈ (run 101 circleSys).events) ∧
    ((run 100 circleSys).events.all fun e =>
      e.2 != Event.patternComplete PatternName.circle) = true ∧
    ((run 100 circleSys).published.all fun p => p.2 == circleTwist) = true ∧
    (run 100 circleSys).published.length = 100 := by
  refine ⟨?_, ?_, ?_, by linarith, ?_, ?_, ?_, ?_, ?_, ?_⟩
  · simp [moveInCircle, hc]
  · cases h : s.ctrl.publishInterval <;>
      simp [moveInCircle, publishTwist, startContinuousPublishing, schedule, emit,
        clearTimer, hc, h, orZero_fin, orZero_zero]
  · cases h : s.ctrl.publishInterval <;>
    · refine ⟨⟨s.nextTimerId + 1, Owner.job s.nextJobId, s.now + duration, none,
        Action.circleStop s.nextJobId⟩, ?_, rfl, rfl, rfl, rfl⟩
      simp [moveInCircle, publishTwist, startContinuousPublishing, schedule, emit,
        clearTimer, hc, h, mem_insertTimer]
  · cases h : s.ctrl.publishInterval <;>
    · simp [moveInCircle, publishTwist, startContinuousPublishing, schedule, emit,
        clearTimer, hc, h]
  · rw [run101_circle]; with_unfolding_all rfl
  · rw [run101_circle, circleFinal_events]; simp
  · rw [run_cruise 100 le_rfl]; with_unfolding_all rfl
  · rw [run_cruise 100 le_rfl]; exact pubTrace_all 100
  · rw [run_cruise 100 le_rfl]; exact pubTrace_length 100

/-- Witness for C7 at the cited concrete call. -/
theorem c7_circle_pattern_witness :
    rosIdle.ctrl.isConnected = true ∧ (0 : ℚ) < 10000 ∧
    (moveInCircle 1 10000 true rosIdle).2 = true :=
  ⟨rfl, by norm_num, (c7_circle_pattern 1 10000 true rosIdle rfl (by norm_num)).1⟩

/-- Claim C10 (confirmed): the simulated battery percentage starts at 0.85,
each 30-second tick replaces it by `max(0.1, p - 0.001)` (monotonically
non-increasing, never below 0.1), and each tick stores and emits exactly that
value — so every battery_update and status read reports at least 0.1. -/
theorem c10_battery_floor (n : Nat) :
    (1 / 10 : ℚ) ≤ simBattery n ∧
    simBattery (n + 1) ≤ simBattery n ∧
    (∀ (k : Nat) (s : Sys) (b : BatteryData), s.ctrl.rosMode = false →
       s.ctrl.batteryData = some b →
       (runAction k Action.batteryTick s).ctrl.batteryData =
         some { b with percentage := batteryDrainStep b.percentage, timestamp := s.now } ∧
       (runAction k Action.batteryTick s).events =
         (s.now, Event.batteryUpdate
           { b with percentage := batteryDrainStep b.percentage,
                    timestamp := s.now }) :: s.events) := by
  have hfloor : ∀ m : Nat, (1 / 10 : ℚ) ≤ simBattery m := by
    intro m
    induction m with
    | zero => norm_num [simBattery]
    | succ k _ => exact le_max_left _ _
  refine ⟨hfloor n, ?_, ?_⟩
  · have h1 := hfloor n
    show batteryDrainStep (simBattery n) ≤ simBattery n
    unfold batteryDrainStep
    exact max_le h1 (by linarith)
  · intro k s b hr hb
    refine ⟨?_, ?_⟩ <;> simp [runAction, hb, hr, emit]

/-- Witness for C10: the first drain tick on the freshly initialized
simulation controller. -/
theorem c10_battery_floor_witness :
    (1 / 10 : ℚ) ≤ simBattery 0 ∧
    (runAction 0 Action.batteryTick simIdle).ctrl.batteryData =
      some { percentage := batteryDrainStep (85 / 100), voltage := 123 / 10,
             current := -(21 / 10), charge := 8500, capacity := 10000,
             designCapacity := 10000, present := true, timestamp := 0 } := by
  have h := c10_battery_floor 0
  refine ⟨h.1, ?_⟩
  exact (h.2.2 0 simIdle
    { percentage := 85 / 100, voltage := 123 / 10, current := -(21 / 10), charge := 8500,
      capacity := 10000, designCapacity := 10000, present := true, timestamp := 0 }
    rfl (by with_unfolding_all rfl)).1

end TB
